import Mathlib

/-!
Verification of the jp-quant-playground ratio engine and export pipeline.

The repository computes fundamental financial ratios over polars DataFrames
(`note/libs/indicators.py`), assembles and exports a per-ticker table
(`note/libs/csv_exporter.py`), and fetches data with a retry loop
(`note/libs/data_fetcher.py`).

Modelling choices:
* A polars numeric cell is `PVal`: null, NaN, plus/minus infinity, or a finite
  number (finite Float64 values are modelled as rationals; the claims under
  study concern null/zero propagation and sign, not rounding).
* polars arithmetic follows IEEE-754 for the special values and propagates
  null through every arithmetic operation and comparison; `truediv` by zero
  yields a signed infinity or NaN (never null and never an exception), as
  documented for polars true division.
* Boolean columns are `Option Bool`; polars `&` uses Kleene logic.
* `DataFrame.filter` drops rows whose predicate evaluates to null.
* Column-oriented `with_columns` pipelines with purely elementwise
  expressions are modelled as row maps.
-/

namespace JPQuant

/-- A polars numeric cell: null, NaN, a signed infinity, or a finite number. -/
inductive PVal where
  | null : PVal
  | nan : PVal
  | pinf : PVal
  | ninf : PVal
  | num : ℚ → PVal
deriving DecidableEq, Repr

/-- IEEE negation lifted to polars cells (null and NaN propagate). -/
def pneg : PVal → PVal
  | .null => .null
  | .nan => .nan
  | .pinf => .ninf
  | .ninf => .pinf
  | .num a => .num (-a)

/-- polars `+` on numeric cells: null propagates, then NaN, then IEEE rules. -/
def padd : PVal → PVal → PVal
  | .null, _ => .null
  | _, .null => .null
  | .nan, _ => .nan
  | _, .nan => .nan
  | .pinf, .ninf => .nan
  | .ninf, .pinf => .nan
  | .pinf, _ => .pinf
  | _, .pinf => .pinf
  | .ninf, _ => .ninf
  | _, .ninf => .ninf
  | .num a, .num b => .num (a + b)

/-- polars `-` on numeric cells. -/
def psub (a b : PVal) : PVal := padd a (pneg b)

/-- polars `*` on numeric cells. -/
def pmul : PVal → PVal → PVal
  | .null, _ => .null
  | _, .null => .null
  | .nan, _ => .nan
  | _, .nan => .nan
  | .pinf, .pinf => .pinf
  | .pinf, .ninf => .ninf
  | .ninf, .pinf => .ninf
  | .ninf, .ninf => .pinf
  | .pinf, .num b => if 0 < b then .pinf else if b < 0 then .ninf else .nan
  | .num a, .pinf => if 0 < a then .pinf else if a < 0 then .ninf else .nan
  | .ninf, .num b => if 0 < b then .ninf else if b < 0 then .pinf else .nan
  | .num a, .ninf => if 0 < a then .ninf else if a < 0 then .pinf else .nan
  | .num a, .num b => .num (a * b)

/-- polars true division `/` on numeric cells.  Null propagates; otherwise the
result follows IEEE-754: a zero denominator with a nonzero finite numerator
gives a signed infinity, `0 / 0` gives NaN (zero is modelled as `+0`). -/
def pdiv : PVal → PVal → PVal
  | .null, _ => .null
  | _, .null => .null
  | .nan, _ => .nan
  | _, .nan => .nan
  | .pinf, .pinf => .nan
  | .pinf, .ninf => .nan
  | .ninf, .pinf => .nan
  | .ninf, .ninf => .nan
  | .pinf, .num b => if b < 0 then .ninf else .pinf
  | .ninf, .num b => if b < 0 then .pinf else .ninf
  | .num _, .pinf => .num 0
  | .num _, .ninf => .num 0
  | .num a, .num b =>
      if b = 0 then (if 0 < a then .pinf else if a < 0 then .ninf else .nan)
      else .num (a / b)

/-- polars `>` comparison: null operands give null, NaN compares false. -/
def pgt : PVal → PVal → Option Bool
  | .null, _ => none
  | _, .null => none
  | .nan, _ => some false
  | _, .nan => some false
  | .pinf, .pinf => some false
  | .pinf, _ => some true
  | .ninf, _ => some false
  | .num _, .pinf => some false
  | .num _, .ninf => some true
  | .num a, .num b => some (decide (b < a))

/-- polars `<` comparison. -/
def plt (a b : PVal) : Option Bool := pgt b a

/-- polars a lower or equal b comparison: null gives null, NaN compares false. -/
def ple : PVal → PVal → Option Bool
  | .null, _ => none
  | _, .null => none
  | .nan, _ => some false
  | _, .nan => some false
  | .pinf, .pinf => some true
  | .pinf, _ => some false
  | .ninf, _ => some true
  | .num _, .pinf => some true
  | .num _, .ninf => some false
  | .num a, .num b => some (decide (a ≤ b))

/-- polars `is_not_null`: always a non-null boolean. -/
def pisNotNull : PVal → Bool
  | .null => false
  | _ => true

/-- polars `&` on boolean columns (Kleene three-valued logic). -/
def kand : Option Bool → Option Bool → Option Bool
  | some false, _ => some false
  | some true, b => b
  | none, some false => some false
  | none, _ => none

/-- polars `.cast(pl.Int32)` on a boolean column: true maps to 1, false to 0,
null stays null. -/
def castI32 : Option Bool → Option ℤ
  | none => none
  | some b => some (if b then 1 else 0)

/-- polars `+` on integer columns with null propagation. -/
def oadd : Option ℤ → Option ℤ → Option ℤ
  | some a, some b => some (a + b)
  | _, _ => none

/-! ## `note/libs/indicators.py` -/

/-- `calculate_net_cash_ratio`: `(total_cash - total_debt) / market_cap`. -/
def calculate_net_cash_ratio (total_cash total_debt market_cap : PVal) : PVal :=
  pdiv (psub total_cash total_debt) market_cap

/-- `calculate_enterprise_value`: `market_cap + (total_debt - total_cash)`. -/
def calculate_enterprise_value (market_cap total_debt total_cash : PVal) : PVal :=
  padd market_cap (psub total_debt total_cash)

/-- `calculate_roic`: `nopat / invested_capital`. -/
def calculate_roic (nopat invested_capital : PVal) : PVal :=
  pdiv nopat invested_capital

/-- `calculate_croic`: `(operating_cash_flow - capex) / invested_capital`. -/
def calculate_croic (operating_cash_flow capex invested_capital : PVal) : PVal :=
  pdiv (psub operating_cash_flow capex) invested_capital

/-- `calculate_gross_profitability`: `gross_profit / total_assets`. -/
def calculate_gross_profitability (gross_profit total_assets : PVal) : PVal :=
  pdiv gross_profit total_assets

/-- `calculate_ev_ebit`: `enterprise_value / ebit`. -/
def calculate_ev_ebit (enterprise_value ebit : PVal) : PVal :=
  pdiv enterprise_value ebit

/-- `calculate_fcf_yield`: `(operating_cash_flow - capex) / market_cap`. -/
def calculate_fcf_yield (operating_cash_flow capex market_cap : PVal) : PVal :=
  pdiv (psub operating_cash_flow capex) market_cap

/-- `calculate_shareholder_yield`:
`(dividends + share_buyback_net + debt_reduction) / market_cap`. -/
def calculate_shareholder_yield
    (dividends share_buyback_net debt_reduction market_cap : PVal) : PVal :=
  pdiv (padd (padd dividends share_buyback_net) debt_reduction) market_cap

/-- `calculate_pbr`: `market_cap / book_value`. -/
def calculate_pbr (market_cap book_value : PVal) : PVal :=
  pdiv market_cap book_value

/-- `calculate_ev_fcf`: `enterprise_value / (operating_cash_flow - capex)`. -/
def calculate_ev_fcf (enterprise_value operating_cash_flow capex : PVal) : PVal :=
  pdiv enterprise_value (psub operating_cash_flow capex)

/-- `calculate_piotroski_f_score`: starts from `pl.lit(0)` and adds the nine
criteria, each a comparison cast to Int32. -/
def calculate_piotroski_f_score
    (net_income operating_cash_flow roa roa_prev : PVal)
    (ocf_greater_ni : Option Bool)
    (long_term_debt long_term_debt_prev current_ratio current_ratio_prev : PVal)
    (shares_outstanding shares_outstanding_prev : PVal)
    (gross_margin gross_margin_prev asset_turnover asset_turnover_prev : PVal) :
    Option ℤ :=
  let score := some (0 : ℤ)
  let score := oadd score (castI32 (pgt net_income (.num 0)))
  let score := oadd score (castI32 (pgt operating_cash_flow (.num 0)))
  let score := oadd score (castI32 (pgt roa roa_prev))
  let score := oadd score (castI32 ocf_greater_ni)
  let score := oadd score (castI32 (plt long_term_debt long_term_debt_prev))
  let score := oadd score (castI32 (pgt current_ratio current_ratio_prev))
  let score := oadd score (castI32 (ple shares_outstanding shares_outstanding_prev))
  let score := oadd score (castI32 (pgt gross_margin gross_margin_prev))
  let score := oadd score (castI32 (pgt asset_turnover asset_turnover_prev))
  score

/-- A raw per-ticker record as fetched by `fetch_ticker_data`
(`note/libs/data_fetcher.py`); every field is a nullable numeric cell. -/
structure RawRow where
  market_cap : PVal
  total_cash : PVal
  total_debt : PVal
  total_assets : PVal
  book_value : PVal
  operating_cash_flow : PVal
  capex : PVal
  ebit : PVal
  gross_profit : PVal
  net_income : PVal
  dividend_yield : PVal
  trailing_pe : PVal
  total_revenue : PVal
  earnings_growth : PVal
  payout_ratio : PVal
deriving DecidableEq, Repr

/-- A row after `add_indicators_to_dataframe` (`note/libs/csv_exporter.py`). -/
structure IndRow extends RawRow where
  net_cash_ratio : PVal
  enterprise_value : PVal
  gross_profitability : PVal
  fcf_yield : PVal
  pbr : PVal
  ev_ebit : PVal
  ev_fcf : PVal
  psr : PVal
  peg_ratio : PVal
deriving DecidableEq, Repr

/-- One row of `add_indicators_to_dataframe` (`note/libs/csv_exporter.py`):
the first `with_columns` computes net_cash_ratio, enterprise_value,
gross_profitability, fcf_yield and pbr from the raw columns; the second
computes ev_ebit and ev_fcf from the freshly computed `enterprise_value`
column; the third adds psr and peg_ratio. -/
def add_indicators_row (r : RawRow) : IndRow :=
  let enterprise_value :=
    calculate_enterprise_value r.market_cap r.total_debt r.total_cash
  { toRawRow := r
    net_cash_ratio := calculate_net_cash_ratio r.total_cash r.total_debt r.market_cap
    enterprise_value := enterprise_value
    gross_profitability := calculate_gross_profitability r.gross_profit r.total_assets
    fcf_yield := calculate_fcf_yield r.operating_cash_flow r.capex r.market_cap
    pbr := calculate_pbr r.market_cap r.book_value
    ev_ebit := calculate_ev_ebit enterprise_value r.ebit
    ev_fcf := calculate_ev_fcf enterprise_value r.operating_cash_flow r.capex
    psr := pdiv r.market_cap r.total_revenue
    peg_ratio := pdiv r.trailing_pe (pmul r.earnings_growth (.num 100)) }

/-- `add_indicators_to_dataframe` over a table: all expressions are
elementwise, so the `with_columns` pipeline acts row by row. -/
def add_indicators_to_dataframe (rows : List RawRow) : List IndRow :=
  rows.map add_indicators_row

/-- Input row of `add_fundamental_indicators` (`note/libs/indicators.py`),
which additionally reads `nopat` and `invested_capital`. -/
structure FRow where
  market_cap : PVal
  total_cash : PVal
  total_debt : PVal
  nopat : PVal
  invested_capital : PVal
  operating_cash_flow : PVal
  capex : PVal
  gross_profit : PVal
  total_assets : PVal
  ebit : PVal
  book_value : PVal
deriving DecidableEq, Repr

/-- A row after `add_fundamental_indicators` (`note/libs/indicators.py`). -/
structure FIndRow extends FRow where
  enterprise_value : PVal
  net_cash_ratio : PVal
  roic : PVal
  croic : PVal
  gross_profitability : PVal
  ev_ebit : PVal
  fcf_yield : PVal
  pbr : PVal
  ev_fcf : PVal
deriving DecidableEq, Repr

/-- One row of `add_fundamental_indicators` (`note/libs/indicators.py`): the
`enterprise_value` column is added by the first `with_columns`; the second
`with_columns` computes the nine ratios, `ev_ebit` and `ev_fcf` reading the
computed `enterprise_value` column. -/
def add_fundamental_row (r : FRow) : FIndRow :=
  let enterprise_value :=
    calculate_enterprise_value r.market_cap r.total_debt r.total_cash
  { toFRow := r
    enterprise_value := enterprise_value
    net_cash_ratio := calculate_net_cash_ratio r.total_cash r.total_debt r.market_cap
    roic := calculate_roic r.nopat r.invested_capital
    croic := calculate_croic r.operating_cash_flow r.capex r.invested_capital
    gross_profitability := calculate_gross_profitability r.gross_profit r.total_assets
    ev_ebit := calculate_ev_ebit enterprise_value r.ebit
    fcf_yield := calculate_fcf_yield r.operating_cash_flow r.capex r.market_cap
    pbr := calculate_pbr r.market_cap r.book_value
    ev_fcf := calculate_ev_fcf enterprise_value r.operating_cash_flow r.capex }

/-- `add_fundamental_indicators` over a table (elementwise, hence a row map). -/
def add_fundamental_indicators (rows : List FRow) : List FIndRow :=
  rows.map add_fundamental_row

/-! ## `add_earnings_flags` (`note/libs/csv_exporter.py`) -/

/-- The three earnings-history columns read by `add_earnings_flags`. -/
structure EarnRow where
  earnings_y0 : PVal
  earnings_y1 : PVal
  earnings_y2 : PVal
deriving DecidableEq, Repr

/-- A row with the appended `consecutive_earnings_growth` boolean column. -/
structure EarnFlagRow extends EarnRow where
  consecutive_earnings_growth : Option Bool
deriving DecidableEq, Repr

/-- The flag expression of `add_earnings_flags`:
`is_not_null(y0) & is_not_null(y1) & is_not_null(y2) & (y0 > y1) & (y1 > y2)`
with polars Kleene `&`. -/
def earnFlag (r : EarnRow) : Option Bool :=
  kand
    (kand
      (kand
        (kand (some (pisNotNull r.earnings_y0)) (some (pisNotNull r.earnings_y1)))
        (some (pisNotNull r.earnings_y2)))
      (pgt r.earnings_y0 r.earnings_y1))
    (pgt r.earnings_y1 r.earnings_y2)

/-- `add_earnings_flags`: appends the flag column elementwise (the source's
empty-frame early return coincides with the map on the empty list). -/
def add_earnings_flags (rows : List EarnRow) : List EarnFlagRow :=
  rows.map (fun r => { toEarnRow := r, consecutive_earnings_growth := earnFlag r })

/-! ## TSV table functions (`note/libs/csv_exporter.py`) -/

/-- A polars DataFrame of string cells, as produced by `pl.read_csv` on the
ticker TSV: named columns and rows of nullable string cells. -/
structure PDF where
  cols : List String
  rows : List (List (Option String))
deriving DecidableEq, Repr

/-- The row mask of `filter_individual_stocks`: polars keeps a row only when
`col != "ETF・ETN"` evaluates to true; a null cell makes the comparison null
and the row is dropped by `filter`. -/
def etfKeep (r : List (Option String)) : Bool :=
  match r.get? 3 with
  | some (some s) => decide (s ≠ "ETF・ETN")
  | _ => false

/-- `filter_individual_stocks`: when the frame has more than 3 columns,
filter on column index 3 with mask `!= "ETF・ETN"`; otherwise return the
frame unchanged. -/
def filter_individual_stocks (df : PDF) : PDF :=
  if 3 < df.cols.length then { df with rows := df.rows.filter etfKeep } else df

/-- `read_tickers_from_tsv`, modelled from the point where the TSV has been
parsed into a frame: optionally filter out ETF/ETN, bail out with `[]` when
the ticker column index is out of range, take the ticker column, drop nulls,
and apply the positive limit if given. -/
def read_tickers_from_tsv (df : PDF) (ticker_column : ℕ) (limit : Option ℤ)
    (exclude_etf : Bool) : List String :=
  let df2 := if exclude_etf then filter_individual_stocks df else df
  if df2.cols.length ≤ ticker_column then []
  else
    let tickers := df2.rows.filterMap (fun r => (r.get? ticker_column).join)
    match limit with
    | some l => if 0 < l then tickers.take l.toNat else tickers
    | none => tickers

/-- `priority_cols` of `reorder_columns`. -/
def priority_cols : List String := ["ticker"]

/-- `metadata_cols` of `reorder_columns`. -/
def metadata_cols : List String :=
  ["stock_name", "market_category", "sector_33", "sector_17"]

/-- `dividend_cols` of `reorder_columns`. -/
def dividend_cols : List String := ["dividend_yield", "payout_ratio"]

/-- `earnings_cols` of `reorder_columns`. -/
def earnings_cols : List String :=
  ["earnings_y0", "earnings_y1", "earnings_y2", "consecutive_earnings_growth"]

/-- `valuation_cols` of `reorder_columns`. -/
def valuation_cols : List String := ["trailing_pe", "psr", "peg_ratio"]

/-- Cell lookup used by `DataFrame.select`: the value of column `n` in row
`r`, resolving the name through the frame's column list. -/
def selectCell (df : PDF) (r : List (Option String)) (n : String) : Option String :=
  match df.cols.indexOf? n with
  | some j => (r.get? j).join
  | none => none

/-- polars `DataFrame.select` on a list of column names. -/
def selectPDF (df : PDF) (names : List String) : PDF :=
  { cols := names, rows := df.rows.map (fun r => names.map (selectCell df r)) }

/-- `reorder_columns`: empty frames are returned unchanged; otherwise the
present members of each priority group are placed first (in group order) and
all other columns follow in their original order. -/
def reorder_columns (df : PDF) : PDF :=
  if df.rows.isEmpty then df
  else
    let existing_priority := priority_cols.filter (fun c => decide (c ∈ df.cols))
    let existing_metadata := metadata_cols.filter (fun c => decide (c ∈ df.cols))
    let existing_dividend := dividend_cols.filter (fun c => decide (c ∈ df.cols))
    let existing_earnings := earnings_cols.filter (fun c => decide (c ∈ df.cols))
    let existing_valuation := valuation_cols.filter (fun c => decide (c ∈ df.cols))
    let other_cols := df.cols.filter (fun c =>
      decide (c ∉ existing_priority ++ existing_metadata ++ existing_dividend
        ++ existing_earnings ++ existing_valuation))
    selectPDF df
      (existing_priority ++ existing_metadata ++ existing_dividend
        ++ existing_earnings ++ existing_valuation ++ other_cols)

/-! ## `fetch_with_retry` (`note/libs/data_fetcher.py`) -/

/-- Outcome of one call to `fetch_ticker_data`: a non-empty payload, an empty
dict, or a raised exception. -/
inductive FetchOutcome (α : Type) where
  | ok : α → FetchOutcome α
  | empty : FetchOutcome α
  | exc : FetchOutcome α
deriving DecidableEq, Repr

/-- Observable trace of one `fetch_with_retry` run: the returned value, how
many times `fetch_ticker_data` was called, and the list of sleep durations
(seconds) in order. -/
structure RetryTrace (α : Type) where
  result : Option α
  calls : ℕ
  waits : List ℕ
deriving DecidableEq, Repr

/-- The `for attempt in range(max_retries)` loop body of `fetch_with_retry`:
a non-empty payload returns immediately; an empty dict falls through to the
next attempt with no sleep; an exception sleeps `2 ** attempt` seconds unless
this was the last attempt, in which case `None` is returned. -/
def retryAux (fetch : ℕ → FetchOutcome α) (max_retries : ℕ) :
    List ℕ → ℕ → List ℕ → RetryTrace α
  | [], calls, waits => ⟨none, calls, waits⟩
  | attempt :: rest, calls, waits =>
    match fetch attempt with
    | .ok d => ⟨some d, calls + 1, waits⟩
    | .empty => retryAux fetch max_retries rest (calls + 1) waits
    | .exc =>
        if attempt < max_retries - 1 then
          retryAux fetch max_retries rest (calls + 1) (waits ++ [2 ^ attempt])
        else ⟨none, calls + 1, waits⟩

/-- `fetch_with_retry`, taking the sequence of `fetch_ticker_data` outcomes
as an oracle indexed by attempt number. -/
def fetch_with_retry (fetch : ℕ → FetchOutcome α) (max_retries : ℕ) :
    RetryTrace α :=
  retryAux fetch max_retries (List.range max_retries) 0 []

/-! ## Null-propagation and evaluation lemmas -/

@[simp] theorem padd_null_left (x : PVal) : padd .null x = .null := by
  cases x <;> rfl

@[simp] theorem padd_null_right (x : PVal) : padd x .null = .null := by
  cases x <;> rfl

@[simp] theorem pneg_null : pneg .null = .null := rfl

@[simp] theorem psub_null_left (x : PVal) : psub .null x = .null := by
  cases x <;> rfl

@[simp] theorem psub_null_right (x : PVal) : psub x .null = .null := by
  cases x <;> rfl

@[simp] theorem pmul_null_left (x : PVal) : pmul .null x = .null := by
  cases x <;> rfl

@[simp] theorem pmul_null_right (x : PVal) : pmul x .null = .null := by
  cases x <;> rfl

@[simp] theorem pdiv_null_left (x : PVal) : pdiv .null x = .null := by
  cases x <;> rfl

@[simp] theorem pdiv_null_right (x : PVal) : pdiv x .null = .null := by
  cases x <;> rfl

@[simp] theorem pgt_null_left (x : PVal) : pgt .null x = none := by
  cases x <;> rfl

@[simp] theorem pgt_null_right (x : PVal) : pgt x .null = none := by
  cases x <;> rfl

@[simp] theorem plt_null_left (x : PVal) : plt .null x = none := by
  cases x <;> rfl

@[simp] theorem plt_null_right (x : PVal) : plt x .null = none := by
  cases x <;> rfl

@[simp] theorem ple_null_left (x : PVal) : ple .null x = none := by
  cases x <;> rfl

@[simp] theorem ple_null_right (x : PVal) : ple x .null = none := by
  cases x <;> rfl

@[simp] theorem castI32_none : castI32 none = none := rfl

@[simp] theorem castI32_some (b : Bool) :
    castI32 (some b) = some (if b then 1 else 0) := rfl

@[simp] theorem oadd_none_left (x : Option ℤ) : oadd none x = none := by
  cases x <;> rfl

@[simp] theorem oadd_none_right (x : Option ℤ) : oadd x none = none := by
  cases x <;> rfl

@[simp] theorem oadd_some_some (a b : ℤ) : oadd (some a) (some b) = some (a + b) := rfl

theorem psub_num_num (a b : ℚ) : psub (.num a) (.num b) = .num (a - b) := by
  simp [psub, padd, pneg, sub_eq_add_neg]

theorem padd_num_num (a b : ℚ) : padd (.num a) (.num b) = .num (a + b) := rfl

theorem pgt_num_num (a b : ℚ) : pgt (.num a) (.num b) = some (decide (b < a)) := rfl

/-- IEEE result of a finite numerator over a zero denominator, by the sign of
the numerator. -/
def zeroDivSign (a : ℚ) : PVal :=
  if 0 < a then .pinf else if a < 0 then .ninf else .nan

theorem pdiv_num_zero (a : ℚ) : pdiv (.num a) (.num 0) = zeroDivSign a := by
  simp [pdiv, zeroDivSign]

@[simp] theorem zeroDivSign_ne_null (a : ℚ) : zeroDivSign a ≠ PVal.null := by
  unfold zeroDivSign
  split <;> simp_all
  split <;> simp_all

/-! ## Claim theorems -/

/-- C1: For every row with numeric (non-null) market_cap, total_debt and
total_cash, the enterprise_value column produced by
`calculate_enterprise_value` equals `market_cap + (total_debt - total_cash)`
exactly — in both the `add_indicators_to_dataframe` pipeline and the
`add_fundamental_indicators` pipeline — and the dependent ratios `ev_ebit`
and `ev_fcf` are computed from that previously computed enterprise_value
column. -/
theorem c1_enterprise_value_exact (r : RawRow) (f : FRow) (a b c : ℚ)
    (hm : r.market_cap = .num a) (hd : r.total_debt = .num b)
    (hc : r.total_cash = .num c)
    (hm2 : f.market_cap = .num a) (hd2 : f.total_debt = .num b)
    (hc2 : f.total_cash = .num c) :
    (add_indicators_row r).enterprise_value = .num (a + (b - c))
    ∧ (add_indicators_row r).ev_ebit
        = calculate_ev_ebit (add_indicators_row r).enterprise_value r.ebit
    ∧ (add_indicators_row r).ev_fcf
        = calculate_ev_fcf (add_indicators_row r).enterprise_value
            r.operating_cash_flow r.capex
    ∧ (add_fundamental_row f).enterprise_value = .num (a + (b - c))
    ∧ (add_fundamental_row f).ev_ebit
        = calculate_ev_ebit (add_fundamental_row f).enterprise_value f.ebit
    ∧ (add_fundamental_row f).ev_fcf
        = calculate_ev_fcf (add_fundamental_row f).enterprise_value
            f.operating_cash_flow f.capex := by
  refine ⟨?_, rfl, rfl, ?_, rfl, rfl⟩ <;>
    simp [add_indicators_row, add_fundamental_row, calculate_enterprise_value,
      hm, hd, hc, hm2, hd2, hc2, psub_num_num, padd_num_num]

/-- Concrete raw row used by the C1 witness. -/
def rawRowW : RawRow :=
  { market_cap := .num 1000000, total_cash := .num 500000
    total_debt := .num 300000, total_assets := .num 1, book_value := .num 1
    operating_cash_flow := .num 1, capex := .num 1, ebit := .num 1
    gross_profit := .num 1, net_income := .num 1, dividend_yield := .num 1
    trailing_pe := .num 1, total_revenue := .num 1, earnings_growth := .num 1
    payout_ratio := .num 1 }

/-- Concrete fundamental row used by the C1 witness. -/
def fRowW : FRow :=
  { market_cap := .num 1000000, total_cash := .num 500000
    total_debt := .num 300000, nopat := .num 1, invested_capital := .num 1
    operating_cash_flow := .num 1, capex := .num 1, gross_profit := .num 1
    total_assets := .num 1, ebit := .num 1, book_value := .num 1 }

/-- Witness for C1 at a concrete row: 1000000 + (300000 - 500000) = 800000. -/
theorem c1_enterprise_value_exact_witness :
    (add_indicators_row rawRowW).enterprise_value = PVal.num 800000
    ∧ (add_fundamental_row fRowW).enterprise_value = PVal.num 800000 := by
  have h := c1_enterprise_value_exact rawRowW fRowW 1000000 300000 500000
    rfl rfl rfl rfl rfl rfl
  refine ⟨?_, ?_⟩
  · rw [h.1]; norm_num
  · rw [h.2.2.2.1]; norm_num

/-- C2 counterexample: with total_cash = 500000, total_debt = 300000 and
market_cap = 0, `calculate_net_cash_ratio` returns positive infinity (polars
true division follows IEEE-754), not null — refuting the claim that a zero
denominator yields null. -/
theorem c2_counterexample_zero_denominator :
    calculate_net_cash_ratio (PVal.num 500000) (PVal.num 300000) (PVal.num 0)
        = PVal.pinf
    ∧ calculate_net_cash_ratio (PVal.num 500000) (PVal.num 300000) (PVal.num 0)
        ≠ PVal.null := by
  have h : calculate_net_cash_ratio (PVal.num 500000) (PVal.num 300000)
      (PVal.num 0) = PVal.pinf := by
    unfold calculate_net_cash_ratio
    rw [psub_num_num, pdiv_num_zero]
    unfold zeroDivSign
    norm_num
  exact ⟨h, by rw [h]; simp⟩

/-- C2 (amended): for every ratio function in the engine, a zero denominator
with numeric operands never raises (the functions are total) and never yields
null: the result is +∞ for a positive numerator, -∞ for a negative numerator
and NaN for a zero numerator, per IEEE-754 float division in polars. -/
theorem c2_zero_denominator_ieee :
    (∀ a b : ℚ,
      calculate_net_cash_ratio (.num a) (.num b) (.num 0) = zeroDivSign (a - b))
    ∧ (∀ a : ℚ, calculate_roic (.num a) (.num 0) = zeroDivSign a)
    ∧ (∀ a b : ℚ, calculate_croic (.num a) (.num b) (.num 0) = zeroDivSign (a - b))
    ∧ (∀ a : ℚ, calculate_gross_profitability (.num a) (.num 0) = zeroDivSign a)
    ∧ (∀ a : ℚ, calculate_ev_ebit (.num a) (.num 0) = zeroDivSign a)
    ∧ (∀ a b : ℚ, calculate_fcf_yield (.num a) (.num b) (.num 0) = zeroDivSign (a - b))
    ∧ (∀ a : ℚ, calculate_pbr (.num a) (.num 0) = zeroDivSign a)
    ∧ (∀ a b : ℚ, calculate_ev_fcf (.num a) (.num b) (.num b) = zeroDivSign a)
    ∧ (∀ a b c : ℚ,
      calculate_shareholder_yield (.num a) (.num b) (.num c) (.num 0)
        = zeroDivSign (a + b + c))
    ∧ (∀ a : ℚ, zeroDivSign a ≠ PVal.null) := by
  refine ⟨fun a b => ?_, fun a => ?_, fun a b => ?_, fun a => ?_, fun a => ?_,
    fun a b => ?_, fun a => ?_, fun a b => ?_, fun a b c => ?_,
    fun a => zeroDivSign_ne_null a⟩ <;>
  simp [calculate_net_cash_ratio, calculate_roic, calculate_croic,
    calculate_gross_profitability, calculate_ev_ebit, calculate_fcf_yield,
    calculate_pbr, calculate_ev_fcf, calculate_shareholder_yield,
    psub_num_num, padd_num_num, pdiv_num_zero, sub_self]

/-- C3: every ratio function in the engine yields null whenever any operand
it reads is null (no imputation, no exception — the functions are total),
and `add_fundamental_indicators` is computed row by row, so all other rows
of the table are computed normally (the output at index i depends only on
the input row at index i, and the table length is preserved). -/
theorem c3_null_operand_propagation :
    (∀ b c : PVal, calculate_net_cash_ratio .null b c = .null)
    ∧ (∀ a c : PVal, calculate_net_cash_ratio a .null c = .null)
    ∧ (∀ a b : PVal, calculate_net_cash_ratio a b .null = .null)
    ∧ (∀ b : PVal, calculate_roic .null b = .null)
    ∧ (∀ a : PVal, calculate_roic a .null = .null)
    ∧ (∀ b c : PVal, calculate_croic .null b c = .null)
    ∧ (∀ a c : PVal, calculate_croic a .null c = .null)
    ∧ (∀ a b : PVal, calculate_croic a b .null = .null)
    ∧ (∀ b : PVal, calculate_gross_profitability .null b = .null)
    ∧ (∀ a : PVal, calculate_gross_profitability a .null = .null)
    ∧ (∀ b : PVal, calculate_ev_ebit .null b = .null)
    ∧ (∀ a : PVal, calculate_ev_ebit a .null = .null)
    ∧ (∀ b c : PVal, calculate_fcf_yield .null b c = .null)
    ∧ (∀ a c : PVal, calculate_fcf_yield a .null c = .null)
    ∧ (∀ a b : PVal, calculate_fcf_yield a b .null = .null)
    ∧ (∀ b : PVal, calculate_pbr .null b = .null)
    ∧ (∀ a : PVal, calculate_pbr a .null = .null)
    ∧ (∀ b c : PVal, calculate_ev_fcf .null b c = .null)
    ∧ (∀ a c : PVal, calculate_ev_fcf a .null c = .null)
    ∧ (∀ a b : PVal, calculate_ev_fcf a b .null = .null)
    ∧ (∀ b c d : PVal, calculate_shareholder_yield .null b c d = .null)
    ∧ (∀ a c d : PVal, calculate_shareholder_yield a .null c d = .null)
    ∧ (∀ a b d : PVal, calculate_shareholder_yield a b .null d = .null)
    ∧ (∀ a b c : PVal, calculate_shareholder_yield a b c .null = .null)
    ∧ (∀ rows : List FRow, (add_fundamental_indicators rows).length = rows.length)
    ∧ (∀ (rows : List FRow) (i : ℕ),
        (add_fundamental_indicators rows)[i]? = (rows[i]?).map add_fundamental_row) := by
  refine ⟨fun b c => ?_, fun a c => ?_, fun a b => ?_, fun b => ?_, fun a => ?_,
    fun b c => ?_, fun a c => ?_, fun a b => ?_, fun b => ?_, fun a => ?_,
    fun b => ?_, fun a => ?_, fun b c => ?_, fun a c => ?_, fun a b => ?_,
    fun b => ?_, fun a => ?_, fun b c => ?_, fun a c => ?_, fun a b => ?_,
    fun b c d => ?_, fun a c d => ?_, fun a b d => ?_, fun a b c => ?_,
    fun rows => ?_, fun rows i => ?_⟩ <;>
  simp [calculate_net_cash_ratio, calculate_roic, calculate_croic,
    calculate_gross_profitability, calculate_ev_ebit, calculate_fcf_yield,
    calculate_pbr, calculate_ev_fcf, calculate_shareholder_yield,
    add_fundamental_indicators]

/-- A 0/1 indicator is bounded by 0 and 1. -/
theorem ite01_bounds (p : Prop) [Decidable p] :
    (0 : ℤ) ≤ (if p then (1 : ℤ) else 0) ∧ (if p then (1 : ℤ) else 0) ≤ 1 := by
  split <;> norm_num

/-- C4: when all 15 inputs of `calculate_piotroski_f_score` are non-null, the
F-score is an integer equal to the sum of the nine boolean criteria (each
contributing 0 or 1) and lies in [0, 9]. -/
theorem c4_fscore_sum_and_range (ni ocf roa roap : ℚ) (b : Bool)
    (ltd ltdp cr crp sh shp gm gmp atv atvp : ℚ) :
    ∃ n : ℤ,
      calculate_piotroski_f_score (.num ni) (.num ocf) (.num roa) (.num roap)
          (some b) (.num ltd) (.num ltdp) (.num cr) (.num crp) (.num sh)
          (.num shp) (.num gm) (.num gmp) (.num atv) (.num atvp) = some n
      ∧ 0 ≤ n ∧ n ≤ 9
      ∧ n = (if 0 < ni then 1 else 0) + (if 0 < ocf then 1 else 0)
          + (if roap < roa then 1 else 0) + (if b then 1 else 0)
          + (if ltd < ltdp then 1 else 0) + (if crp < cr then 1 else 0)
          + (if sh ≤ shp then 1 else 0) + (if gmp < gm then 1 else 0)
          + (if atvp < atv then 1 else 0) := by
  refine ⟨(if 0 < ni then 1 else 0) + (if 0 < ocf then 1 else 0)
      + (if roap < roa then 1 else 0) + (if b then 1 else 0)
      + (if ltd < ltdp then 1 else 0) + (if crp < cr then 1 else 0)
      + (if sh ≤ shp then 1 else 0) + (if gmp < gm then 1 else 0)
      + (if atvp < atv then 1 else 0), ?_, ?_, ?_, rfl⟩
  · simp [calculate_piotroski_f_score, pgt, plt, ple]
  · obtain ⟨h1, _⟩ := ite01_bounds (0 < ni)
    obtain ⟨h2, _⟩ := ite01_bounds (0 < ocf)
    obtain ⟨h3, _⟩ := ite01_bounds (roap < roa)
    obtain ⟨h4, _⟩ := ite01_bounds (b = true)
    obtain ⟨h5, _⟩ := ite01_bounds (ltd < ltdp)
    obtain ⟨h6, _⟩ := ite01_bounds (crp < cr)
    obtain ⟨h7, _⟩ := ite01_bounds (sh ≤ shp)
    obtain ⟨h8, _⟩ := ite01_bounds (gmp < gm)
    obtain ⟨h9, _⟩ := ite01_bounds (atvp < atv)
    omega
  · obtain ⟨_, h1⟩ := ite01_bounds (0 < ni)
    obtain ⟨_, h2⟩ := ite01_bounds (0 < ocf)
    obtain ⟨_, h3⟩ := ite01_bounds (roap < roa)
    obtain ⟨_, h4⟩ := ite01_bounds (b = true)
    obtain ⟨_, h5⟩ := ite01_bounds (ltd < ltdp)
    obtain ⟨_, h6⟩ := ite01_bounds (crp < cr)
    obtain ⟨_, h7⟩ := ite01_bounds (sh ≤ shp)
    obtain ⟨_, h8⟩ := ite01_bounds (gmp < gm)
    obtain ⟨_, h9⟩ := ite01_bounds (atvp < atv)
    omega

/-- C9: if any of the 15 inputs of `calculate_piotroski_f_score` is null, the
returned F-score is null (the null propagates through the comparison, the
Int32 cast and the running sum), not a partial score. -/
theorem c9_fscore_null_input (ni ocf roa roap : PVal) (og : Option Bool)
    (ltd ltdp cr crp sh shp gm gmp atv atvp : PVal)
    (h : ni = .null ∨ ocf = .null ∨ roa = .null ∨ roap = .null ∨ og = none
      ∨ ltd = .null ∨ ltdp = .null ∨ cr = .null ∨ crp = .null ∨ sh = .null
      ∨ shp = .null ∨ gm = .null ∨ gmp = .null ∨ atv = .null ∨ atvp = .null) :
    calculate_piotroski_f_score ni ocf roa roap og ltd ltdp cr crp sh shp gm
      gmp atv atvp = none := by
  rcases h with h | h | h | h | h | h | h | h | h | h | h | h | h | h | h <;>
    subst h <;> simp [calculate_piotroski_f_score]

/-- Witness for C9: a null net_income with every other input present yields a
null F-score. -/
theorem c9_fscore_null_input_witness :
    calculate_piotroski_f_score .null (.num 1) (.num 1) (.num 1) (some true)
      (.num 1) (.num 1) (.num 1) (.num 1) (.num 1) (.num 1) (.num 1) (.num 1)
      (.num 1) (.num 1) = none :=
  c9_fscore_null_input _ _ _ _ _ _ _ _ _ _ _ _ _ _ _ (Or.inl rfl)

/-- polars Kleene `&` of two non-null booleans. -/
@[simp] theorem kand_some_some (a b : Bool) :
    kand (some a) (some b) = some (a && b) := by
  cases a <;> cases b <;> rfl

/-- polars Kleene `&` with a null right operand. -/
@[simp] theorem kand_some_none (a : Bool) :
    kand (some a) none = if a then none else some false := by
  cases a <;> rfl

/-- polars Kleene `&` with a null left operand. -/
@[simp] theorem kand_none_some (b : Bool) :
    kand none (some b) = if b then none else some false := by
  cases b <;> rfl

/-- polars Kleene `&` of two nulls. -/
@[simp] theorem kand_none_none : kand none none = none := rfl

/-- Case analysis of the `consecutive_earnings_growth` expression: it is
never null, and it is true exactly when all three years are non-null and
strictly decreasing from y0 to y2. -/
theorem earnFlag_spec (y0 y1 y2 : PVal) :
    earnFlag ⟨y0, y1, y2⟩ ≠ none
    ∧ (earnFlag ⟨y0, y1, y2⟩ = some true ↔
        (y0 ≠ .null ∧ y1 ≠ .null ∧ y2 ≠ .null
         ∧ pgt y0 y1 = some true ∧ pgt y1 y2 = some true)) := by
  cases y0 <;> cases y1 <;> cases y2 <;>
    simp [earnFlag, pisNotNull, pgt]

/-- C5: `add_earnings_flags` preserves the rows, and for every produced row
the `consecutive_earnings_growth` flag is never null and is true iff
earnings_y0, earnings_y1 and earnings_y2 are all non-null with
`earnings_y0 > earnings_y1 > earnings_y2` strictly. -/
theorem c5_consecutive_growth_flag :
    (∀ rows : List EarnRow,
      (add_earnings_flags rows).map EarnFlagRow.toEarnRow = rows)
    ∧ (∀ (rows : List EarnRow) (fr : EarnFlagRow),
        fr ∈ add_earnings_flags rows →
          fr.consecutive_earnings_growth ≠ none
          ∧ (fr.consecutive_earnings_growth = some true ↔
              (fr.earnings_y0 ≠ .null ∧ fr.earnings_y1 ≠ .null
               ∧ fr.earnings_y2 ≠ .null
               ∧ pgt fr.earnings_y0 fr.earnings_y1 = some true
               ∧ pgt fr.earnings_y1 fr.earnings_y2 = some true))) := by
  constructor
  · intro rows
    induction rows with
    | nil => rfl
    | cons r rest ih => simpa [add_earnings_flags] using ih
  · intro rows fr hfr
    simp only [add_earnings_flags, List.mem_map] at hfr
    obtain ⟨r, _, rfl⟩ := hfr
    simpa using earnFlag_spec r.earnings_y0 r.earnings_y1 r.earnings_y2

/-- Witness for C5 at a concrete strictly decreasing earnings row. -/
theorem c5_consecutive_growth_flag_witness :
    (EarnFlagRow.mk ⟨PVal.num 3, PVal.num 2, PVal.num 1⟩
        (earnFlag ⟨PVal.num 3, PVal.num 2, PVal.num 1⟩)).consecutive_earnings_growth
      ≠ none :=
  (c5_consecutive_growth_flag.2 [⟨PVal.num 3, PVal.num 2, PVal.num 1⟩] _
    (by decide)).1

/-- The retry loop calls the fetcher at most once per remaining attempt. -/
theorem retryAux_calls_le {α : Type} (fetch : ℕ → FetchOutcome α) (m : ℕ)
    (l : List ℕ) (calls : ℕ) (waits : List ℕ) :
    (retryAux fetch m l calls waits).calls ≤ calls + l.length := by
  induction l generalizing calls waits with
  | nil => simp [retryAux]
  | cons a rest ih =>
      cases h : fetch a with
      | ok d => simp only [retryAux, h, List.length_cons]; omega
      | empty =>
          simp only [retryAux, h]
          calc (retryAux fetch m rest (calls + 1) waits).calls
              ≤ calls + 1 + rest.length := ih _ _
            _ ≤ calls + (a :: rest).length := by
                simp only [List.length_cons]; omega
      | exc =>
          simp only [retryAux, h]
          split
          · calc (retryAux fetch m rest (calls + 1) (waits ++ [2 ^ a])).calls
                ≤ calls + 1 + rest.length := ih _ _
              _ ≤ calls + (a :: rest).length := by
                  simp only [List.length_cons]; omega
          · simp only [List.length_cons]; omega

/-- C6 evidence: when the fetcher returns an empty dict twice and succeeds on
the third attempt, `fetch_with_retry` returns the payload after exactly 3
calls and performs no sleep at all (the backoff lives only in the exception
branch); when every attempt raises, it returns None after 3 calls sleeping
1s then 2s (never 4s, because the final attempt returns without sleeping);
when every attempt returns an empty dict, it returns None with no sleep; and
in general no more than `max_retries` calls are made. -/
theorem c6_retry_trace_evidence :
    fetch_with_retry (fun k => if k < 2 then .empty else .ok 42) 3
        = ⟨some 42, 3, []⟩
    ∧ fetch_with_retry (fun _ => (FetchOutcome.exc : FetchOutcome ℕ)) 3
        = ⟨none, 3, [1, 2]⟩
    ∧ fetch_with_retry (fun _ => (FetchOutcome.empty : FetchOutcome ℕ)) 3
        = ⟨none, 3, []⟩
    ∧ (∀ (fetch : ℕ → FetchOutcome ℕ) (n : ℕ),
        (fetch_with_retry fetch n).calls ≤ n) := by
  refine ⟨by decide, by decide, by decide, fun fetch n => ?_⟩
  have h := retryAux_calls_le fetch n (List.range n) 0 []
  simpa [fetch_with_retry] using h

/-- The two-ticker TSV scenario of the spec: ticker 1301 on the prime market
and ticker 1320, an ETF. -/
def tsvScenarioDF : PDF :=
  { cols := ["日付", "コード", "銘柄名", "市場・商品区分", "33業種コード",
      "33業種区分", "17業種コード", "17業種区分"]
    rows := [[some "20240101", some "1301", some "極洋", some "プライム",
        some "3050", some "水産・農林業", some "050", some "食品"],
      [some "20240101", some "1320", some "ダイワ上場投信",
        some "ETF・ETN", some "-", some "-", some "-", some "-"]] }

/-- C7: with ETF filtering enabled, every row whose market-category column
(index 3) equals "ETF・ETN" is excluded, every row with another non-null
market-category value is kept, and in the two-ticker scenario only "1301" is
returned for fetching. -/
theorem c7_etf_exclusion :
    (∀ df : PDF, 3 < df.cols.length →
      ∀ r ∈ df.rows, r.get? 3 = some (some "ETF・ETN") →
        r ∉ (filter_individual_stocks df).rows)
    ∧ (∀ df : PDF, 3 < df.cols.length →
      ∀ r ∈ df.rows, ∀ s : String, r.get? 3 = some (some s) →
        s ≠ "ETF・ETN" → r ∈ (filter_individual_stocks df).rows)
    ∧ read_tickers_from_tsv tsvScenarioDF 1 none true = ["1301"] := by
  refine ⟨?_, ?_, by decide⟩
  · intro df h3 r hr hcat
    have hcat' : r[3]? = some (some "ETF・ETN") := by simpa using hcat
    simp [filter_individual_stocks, h3, List.mem_filter, etfKeep, hcat']
  · intro df h3 r hr s hcat hne
    have hcat' : r[3]? = some (some s) := by simpa using hcat
    simp [filter_individual_stocks, h3, List.mem_filter, etfKeep, hcat', hr, hne]

/-- Witness for C7: the ETF row of the scenario frame is excluded. -/
theorem c7_etf_exclusion_witness :
    [some "20240101", some "1320", some "ダイワ上場投信", some "ETF・ETN",
      some "-", some "-", some "-", some "-"]
      ∉ (filter_individual_stocks tsvScenarioDF).rows :=
  c7_etf_exclusion.1 tsvScenarioDF (by decide) _ (by decide) (by decide)

/-- The two-ticker frame with a null market category on the second row. -/
def tsvNullCatDF : PDF :=
  { cols := ["日付", "コード", "銘柄名", "市場・商品区分", "33業種コード",
      "33業種区分", "17業種コード", "17業種区分"]
    rows := [[some "20240101", some "1301", some "極洋", some "プライム",
        some "3050", some "水産・農林業", some "050", some "食品"],
      [some "20240101", some "9999", some "無区分株", none,
        some "-", some "-", some "-", some "-"]] }

/-- C10: `filter_individual_stocks` also drops every row whose
market-category cell is null (the mask `col != "ETF・ETN"` is null there and
`filter` drops null-mask rows), so with ETF exclusion enabled a ticker with
a missing market category is silently omitted from the ticker list. -/
theorem c10_null_market_category_dropped :
    (∀ df : PDF, 3 < df.cols.length →
      ∀ r ∈ df.rows, r.get? 3 = some none →
        r ∉ (filter_individual_stocks df).rows)
    ∧ read_tickers_from_tsv tsvNullCatDF 1 none true = ["1301"] := by
  refine ⟨?_, by decide⟩
  intro df h3 r hr hcat
  have hcat' : r[3]? = some none := by simpa using hcat
  simp [filter_individual_stocks, h3, List.mem_filter, etfKeep, hcat']

/-- Witness for C10: the null-category row of the scenario frame is dropped. -/
theorem c10_null_market_category_dropped_witness :
    [some "20240101", some "9999", some "無区分株", none,
      some "-", some "-", some "-", some "-"]
      ∉ (filter_individual_stocks tsvNullCatDF).rows :=
  c10_null_market_category_dropped.1 tsvNullCatDF (by decide) _ (by decide)
    (by decide)

/-- The union of the five priority groups of `reorder_columns`. -/
def allGroupCols : List String :=
  priority_cols ++ metadata_cols ++ dividend_cols ++ earnings_cols
    ++ valuation_cols

/-- C8: on a non-empty frame, `reorder_columns` places the ticker column
first, then the present metadata, dividend, earnings (history plus growth
flag) and valuation groups in that order, and finally every remaining column
in its original relative order. -/
theorem c8_reorder_columns (df : PDF) (hne : df.rows ≠ []) :
    (reorder_columns df).cols
      = priority_cols.filter (fun c => decide (c ∈ df.cols))
        ++ metadata_cols.filter (fun c => decide (c ∈ df.cols))
        ++ dividend_cols.filter (fun c => decide (c ∈ df.cols))
        ++ earnings_cols.filter (fun c => decide (c ∈ df.cols))
        ++ valuation_cols.filter (fun c => decide (c ∈ df.cols))
        ++ df.cols.filter (fun c => decide (c ∉ allGroupCols))
    ∧ ("ticker" ∈ df.cols → (reorder_columns df).cols.head? = some "ticker") := by
  have hemp : df.rows.isEmpty = false := by
    simpa [List.isEmpty_iff] using hne
  have hcols : (reorder_columns df).cols
      = priority_cols.filter (fun c => decide (c ∈ df.cols))
        ++ metadata_cols.filter (fun c => decide (c ∈ df.cols))
        ++ dividend_cols.filter (fun c => decide (c ∈ df.cols))
        ++ earnings_cols.filter (fun c => decide (c ∈ df.cols))
        ++ valuation_cols.filter (fun c => decide (c ∈ df.cols))
        ++ df.cols.filter (fun c => decide (c ∉ allGroupCols)) := by
    simp only [reorder_columns, hemp, Bool.false_eq_true, if_false, selectPDF]
    congr 1
    apply List.filter_congr
    intro a ha
    simp [allGroupCols, List.mem_filter, ha]
  refine ⟨hcols, fun ht => ?_⟩
  rw [hcols]
  simp [priority_cols, ht]

/-- Concrete frame used by the C8 witness. -/
def reorderDFW : PDF :=
  { cols := ["ticker", "market_cap", "stock_name", "psr"]
    rows := [[some "1301", some "1000000", some "極洋", some "0.5"]] }

/-- Witness for C8: the concrete frame is reordered to ticker, metadata,
valuation, remaining columns. -/
theorem c8_reorder_columns_witness :
    (reorder_columns reorderDFW).cols
      = ["ticker", "stock_name", "psr", "market_cap"] := by
  have h := c8_reorder_columns reorderDFW (by decide)
  rw [h.1]
  decide

end JPQuant
